import Mathlib

/-!
Verification of the ShopMasterPro state-reconciliation and metrics engine
(`src/App.tsx`) against its natural-language specification.

Embedding conventions:

* A JavaScript numeric field is embedded as `Option Int`: `some v` is a stored
  number `v`, `none` is an absent (`undefined`) or otherwise non-numeric value,
  whose `Number(·)` conversion is `NaN`.  A computed JavaScript number is
  likewise `Option Int`, with `none` standing for `NaN`; the arithmetic
  operators `jadd`, `jsub`, `jmul` propagate `NaN` exactly as IEEE arithmetic
  does, and `Math.max(0, NaN) = NaN` is mirrored by `jmax0`.
* Numeric magnitudes are embedded as integers.  The engine performs only
  addition, subtraction, multiplication, `Math.max`, and `<=` comparisons,
  all of which are exact for integers of this size in JavaScript's floats,
  so the embedding is faithful on integer-valued data.
* `Number(x) || 0` (and `x || 0` on a numeric-or-absent value) is `numOr0`:
  it yields the stored number, or `0` for an absent value (`NaN` and
  `undefined` are falsy; a stored numeric `0` also maps to `0`).
* The record shapes (`Product`, `Sale`, `Expense`, `StockOut`,
  `ShopSettings`) are modelled from the spec, section 3 — their TypeScript
  declarations live in `src/types.ts`, which is not part of the provided
  sources — restricted to the fields the engine in `src/App.tsx` reads
  and writes.
* `localStorage` persistence is modelled by an abstract stored cell
  (`RawStored`): the key can be missing, hold unparseable text
  (`JSON.parse` throws), or hold text parsing to a structured `Json` value.
-/

namespace ShopMaster

/-- JavaScript addition on possibly-NaN numbers: NaN propagates. -/
def jadd : Option Int → Option Int → Option Int
  | some a, some b => some (a + b)
  | _, _ => none

/-- JavaScript subtraction on possibly-NaN numbers: NaN propagates. -/
def jsub : Option Int → Option Int → Option Int
  | some a, some b => some (a - b)
  | _, _ => none

/-- JavaScript multiplication on possibly-NaN numbers: NaN propagates
(in particular `NaN * 0 = NaN`). -/
def jmul : Option Int → Option Int → Option Int
  | some a, some b => some (a * b)
  | _, _ => none

/-- `Math.max(0, x)`: the maximum of `0` and `x`, and `NaN` when `x` is `NaN`. -/
def jmax0 : Option Int → Option Int
  | some a => some (max 0 a)
  | none => none

/-- `Number(x) || 0` on a stored numeric-or-absent field: the number, else `0`. -/
def numOr0 (v : Option Int) : Int := v.getD 0

/-- Modelled from the spec, section 3 (declared in the absent `src/types.ts`):
a product record, with the fields read and written by `src/App.tsx`. -/
structure Product where
  id : String
  name : String
  price : Option Int
  cost : Option Int
  stock : Option Int
  minStock : Option Int
  lastUpdated : String
deriving DecidableEq

/-- Modelled from the spec, section 3: a line item of a sale
(productId reference and quantity). -/
structure SaleItem where
  productId : String
  quantity : Option Int
deriving DecidableEq

/-- Modelled from the spec, section 3: a sale record.  `items` itself can be
absent in a partially-migrated record (the code guards it with `s.items || []`),
hence `Option (List SaleItem)`. -/
structure Sale where
  id : String
  items : Option (List SaleItem)
  total : Option Int
  date : String
deriving DecidableEq

/-- Modelled from the spec, section 3: an expense record. -/
structure Expense where
  id : String
  amount : Option Int
  description : String
  date : String
deriving DecidableEq

/-- Modelled from the spec, section 3: a stock-out record.  `reason` is a
string; the engine treats only the value `"Sale"` specially. -/
structure StockOut where
  id : String
  productId : String
  quantity : Option Int
  reason : String
  date : String
deriving DecidableEq

/-- Modelled from the spec, section 3: the return-policy sub-object of the
shop settings. -/
structure ReturnPolicy where
  enabled : Bool
  content : String
  lastUpdated : String
deriving DecidableEq

/-- Modelled from the spec, section 3: the shop settings record. -/
structure ShopSettings where
  returnPolicy : ReturnPolicy
deriving DecidableEq

/-- `DEFAULT_SETTINGS` from `src/App.tsx` lines 14-20; the timestamp
`new Date().toISOString()` is a parameter. -/
def DEFAULT_SETTINGS (now : String) : ShopSettings :=
  { returnPolicy :=
    { enabled := false
      content := "Items can be returned within 7 days of purchase in original packaging. Receipt is mandatory."
      lastUpdated := now } }

/-- The five entity stores of the application (the `useState` slots of
`src/App.tsx`). -/
structure AppState where
  products : List Product
  sales : List Sale
  expenses : List Expense
  stockOuts : List StockOut
  shopSettings : ShopSettings
deriving DecidableEq

/-- `products.find(p => p.id === pid)` as used throughout the metrics engine. -/
def findProduct (products : List Product) (pid : String) : Option Product :=
  products.find? (fun p => p.id == pid)

/-- The cost lookup of the sales-profit computation, `src/App.tsx` lines
126-127: `product ? (Number(product.cost) || 0) : 0`. -/
def costLookup (products : List Product) (pid : String) : Int :=
  match findProduct products pid with
  | some p => numOr0 p.cost
  | none => 0

/-- The price lookup of the stock-out revenue computation, `src/App.tsx`
lines 117-118: `product?.price || 0`. -/
def priceLookup (products : List Product) (pid : String) : Int :=
  numOr0 ((findProduct products pid).bind Product.price)

/-- `stockOuts.filter(so => so.reason === 'Sale')`. -/
def saleFilter (stockOuts : List StockOut) : List StockOut :=
  stockOuts.filter (fun so => so.reason == "Sale")

/-- `baseRevenue`, `src/App.tsx` line 113:
`sales.reduce((acc, s) => acc + (Number(s.total) || 0), 0)`.
Every summand is coerced, so no NaN can arise and the result is a number. -/
def baseRevenue (sales : List Sale) : Int :=
  sales.foldl (fun acc s => acc + numOr0 s.total) 0

/-- `stockOutRevenue`, `src/App.tsx` lines 114-119: over `'Sale'`-reason
stock-outs, `acc + (Number(so.quantity) * (product?.price || 0))`.
`so.quantity` is converted without a `|| 0` fallback, so an absent quantity
makes the accumulator NaN. -/
def stockOutRevenue (products : List Product) (stockOuts : List StockOut) : Option Int :=
  (saleFilter stockOuts).foldl
    (fun acc so => jadd acc (jmul so.quantity (some (priceLookup products so.productId))))
    (some 0)

/-- `totalExpenses`, `src/App.tsx` line 122:
`expenses.reduce((acc, e) => acc + (Number(e.amount) || 0), 0)`. -/
def totalExpenses (expenses : List Expense) : Int :=
  expenses.foldl (fun acc e => acc + numOr0 e.amount) 0

/-- `saleCogs`, `src/App.tsx` lines 125-129: the cost of goods of one sale,
`(s.items || []).reduce((itemAcc, item) => itemAcc + (cost * (Number(item.quantity) || 0)), 0)`
with `cost = product ? (Number(product.cost) || 0) : 0`.  Every factor is
coerced, so the result is always a number. -/
def saleCogs (products : List Product) (s : Sale) : Int :=
  (s.items.getD []).foldl
    (fun itemAcc item => itemAcc + costLookup products item.productId * numOr0 item.quantity)
    0

/-- `salesProfit`, `src/App.tsx` lines 124-131: over all sales,
`acc + (Number(s.total) - saleCogs)`.  `s.total` is converted without a
`|| 0` fallback here, so an absent total makes the accumulator NaN. -/
def salesProfit (products : List Product) (sales : List Sale) : Option Int :=
  sales.foldl (fun acc s => jadd acc (jsub s.total (some (saleCogs products s)))) (some 0)

/-- `stockOutProfit`, `src/App.tsx` lines 133-140: over `'Sale'`-reason
stock-outs, skip when no product matches, else
`acc + ((Number(p.price) - Number(p.cost)) * Number(so.quantity))`; none of
the three fields has a `|| 0` fallback. -/
def stockOutProfit (products : List Product) (stockOuts : List StockOut) : Option Int :=
  (saleFilter stockOuts).foldl
    (fun acc so =>
      match findProduct products so.productId with
      | none => acc
      | some p => jadd acc (jmul (jsub p.price p.cost) so.quantity))
    (some 0)

/-- `lowStockCount`, `src/App.tsx` line 144:
`products.filter(p => (Number(p.stock) || 0) <= (Number(p.minStock) || 0)).length`. -/
def lowStockCount (products : List Product) : Nat :=
  (products.filter (fun p => decide (numOr0 p.stock ≤ numOr0 p.minStock))).length

/-- The `DashboardStats` record computed by the metrics engine. -/
structure DashboardStats where
  totalRevenue : Option Int
  totalProfit : Option Int
  totalSales : Nat
  totalExpenses : Int
  lowStockCount : Nat
deriving DecidableEq

/-- The Global Calculation Engine, `src/App.tsx` lines 112-147. -/
def stats (st : AppState) : DashboardStats :=
  { totalRevenue := jadd (some (baseRevenue st.sales)) (stockOutRevenue st.products st.stockOuts)
    totalProfit :=
      jsub (jadd (salesProfit st.products st.sales) (stockOutProfit st.products st.stockOuts))
        (some (totalExpenses st.expenses))
    totalSales := st.sales.length + (saleFilter st.stockOuts).length
    totalExpenses := totalExpenses st.expenses
    lowStockCount := lowStockCount st.products }

/-- `handleUpdateProduct`, `src/App.tsx` lines 150-152. -/
def handleUpdateProduct (updatedProduct : Product) (st : AppState) : AppState :=
  { st with products := st.products.map (fun p => if p.id == updatedProduct.id then updatedProduct else p) }

/-- `handleAddProduct`, `src/App.tsx` lines 154-156. -/
def handleAddProduct (newProduct : Product) (st : AppState) : AppState :=
  { st with products := newProduct :: st.products }

/-- `handleDeleteProduct`, `src/App.tsx` lines 158-160. -/
def handleDeleteProduct (productId : String) (st : AppState) : AppState :=
  { st with products := st.products.filter (fun p => p.id != productId) }

/-- `handleAddExpense`, `src/App.tsx` lines 162-164. -/
def handleAddExpense (newExpense : Expense) (st : AppState) : AppState :=
  { st with expenses := st.expenses ++ [newExpense] }

/-- The per-product update performed by `handleRecordStockOut`,
`src/App.tsx` lines 168-177: on an id match, set
`stock = Math.max(0, Number(p.stock) - Number(record.quantity))` and refresh
`lastUpdated`; otherwise leave the product alone. -/
def stockOutProductUpdate (now : String) (record : StockOut) (p : Product) : Product :=
  if p.id == record.productId then
    { p with stock := jmax0 (jsub p.stock record.quantity), lastUpdated := now }
  else p

/-- `handleRecordStockOut`, `src/App.tsx` lines 166-178; the timestamp
`new Date().toISOString()` is a parameter. -/
def handleRecordStockOut (now : String) (record : StockOut) (st : AppState) : AppState :=
  { st with
    stockOuts := st.stockOuts ++ [record]
    products := st.products.map (stockOutProductUpdate now record) }

/-- `handleUpdateSettings`, `src/App.tsx` lines 180-182. -/
def handleUpdateSettings (newSettings : ShopSettings) (st : AppState) : AppState :=
  { st with shopSettings := newSettings }

/-- One Mutation Handler call, with its argument. -/
inductive Action where
  | addProduct (p : Product)
  | updateProduct (p : Product)
  | deleteProduct (productId : String)
  | addExpense (e : Expense)
  | recordStockOut (now : String) (record : StockOut)
  | updateSettings (s : ShopSettings)
deriving DecidableEq

/-- Apply one Mutation Handler call to the application state. -/
def applyAction (st : AppState) : Action → AppState
  | .addProduct p => handleAddProduct p st
  | .updateProduct p => handleUpdateProduct p st
  | .deleteProduct pid => handleDeleteProduct pid st
  | .addExpense e => handleAddExpense e st
  | .recordStockOut now r => handleRecordStockOut now r st
  | .updateSettings s => handleUpdateSettings s st

/-- Apply a sequence of Mutation Handler calls, oldest first. -/
def applyActions (st : AppState) (acts : List Action) : AppState :=
  acts.foldl applyAction st

/-- A JSON value, the result of a successful `JSON.parse`. -/
inductive Json where
  | null
  | bool (b : Bool)
  | num (v : Int)
  | str (s : String)
  | arr (elems : List Json)
  | obj (fields : List (String × Json))

/-- The state of one `localStorage` key: absent (or falsy), holding text on
which `JSON.parse` throws, or holding text that parses to a `Json` value. -/
inductive RawStored where
  | missing
  | unparseable
  | parsed (v : Json)

/-- The collection initializers of `src/App.tsx` (lines 27-38, 40-51, 53-64,
66-77): read the key, parse, return the parsed value when it is an array and
the caller-supplied default otherwise; any thrown error also falls through to
the default. -/
def loadCollection (stored : RawStored) (dflt : List Json) : List Json :=
  match stored with
  | .missing => dflt
  | .unparseable => dflt
  | .parsed (Json.arr elems) => elems
  | .parsed _ => dflt

/-- The settings initializer of `src/App.tsx` lines 79-89: read the key and
return whatever `JSON.parse` yields, with no shape validation; only a missing
key or a thrown error falls through to the default. -/
def loadSettings (stored : RawStored) (dflt : Json) : Json :=
  match stored with
  | .missing => dflt
  | .unparseable => dflt
  | .parsed v => v

/-- Modelled from the spec, section 4.1: `INITIAL_PRODUCTS`, the hard-coded
seed list for the Products store, declared in the absent `src/constants.ts`.
Its concrete contents are irrelevant to every claim; a representative
one-element list stands in for them. -/
def INITIAL_PRODUCTS : List Json :=
  [Json.obj [("id", Json.str "seed-1"), ("name", Json.str "Seed Product")]]

/-- The default JSON encoding of `DEFAULT_SETTINGS` (timestamp fixed). -/
def settingsDefaultJson : Json :=
  Json.obj [("returnPolicy", Json.obj
    [("enabled", Json.bool false),
     ("content", Json.str "Items can be returned within 7 days of purchase in original packaging. Receipt is mandatory."),
     ("lastUpdated", Json.str "")])]

/-- Stated from the spec, section 8: the concrete scenario product
(price 100, cost 60, stock 10). -/
def scenarioProduct : Product :=
  { id := "p1", name := "Item", price := some 100, cost := some 60,
    stock := some 10, minStock := some 2, lastUpdated := "" }

/-- Stated from the spec, section 8: one Sale with total 100 and one line
item of quantity 1 on the scenario product. -/
def scenarioSale : Sale :=
  { id := "s1", items := some [{ productId := "p1", quantity := some 1 }],
    total := some 100, date := "" }

/-- Stated from the spec, section 8: one StockOut with reason `Sale` and
quantity 2 on the scenario product. -/
def scenarioStockOut : StockOut :=
  { id := "so1", productId := "p1", quantity := some 2, reason := "Sale", date := "" }

/-- The spec's concrete verification snapshot, section 8. -/
def scenarioState : AppState :=
  { products := [scenarioProduct], sales := [scenarioSale], expenses := [],
    stockOuts := [scenarioStockOut], shopSettings := DEFAULT_SETTINGS "" }

/-- A snapshot whose only stock-out has reason `Sale` but an absent quantity
field, over a matching product. -/
def c2StockOut : StockOut :=
  { id := "so2", productId := "p1", quantity := none, reason := "Sale", date := "" }

/-- Snapshot for the coerce-to-zero counterexample: a matching product and a
`Sale`-reason stock-out whose quantity is absent. -/
def c2State : AppState :=
  { products := [scenarioProduct], sales := [], expenses := [],
    stockOuts := [c2StockOut], shopSettings := DEFAULT_SETTINGS "" }

/-- Starting state for the mutation-sequence claims: a single product with
numeric non-negative stock. -/
def c1Start : AppState :=
  { products := [scenarioProduct], sales := [], expenses := [],
    stockOuts := [], shopSettings := DEFAULT_SETTINGS "" }

/-- A product carrying a negative stock value, as a caller may freely pass
to UpdateProduct or AddProduct. -/
def c1BadProduct : Product := { scenarioProduct with stock := some (-1) }

/-- The stock field is a number and non-negative. -/
def stockOK (v : Option Int) : Bool :=
  match v with
  | some s => decide (0 ≤ s)
  | none => false

/-- A Mutation Handler argument is well-formed for the stock invariant:
products passed to AddProduct/UpdateProduct carry numeric non-negative stock,
and RecordStockOut records carry a numeric quantity. -/
def actionOK : Action → Bool
  | .addProduct p => stockOK p.stock
  | .updateProduct p => stockOK p.stock
  | .recordStockOut _ record => record.quantity.isSome
  | _ => true

/-- Stated from the spec, section 4.4: total revenue is the sum of `total`
over all Sales plus the sum, over StockOuts with reason `Sale`, of quantity
times the matching product's price (price 0 when no product matches). -/
def specTotalRevenue (products : List Product) (sales : List Sale)
    (stockOuts : List StockOut) : Int :=
  (sales.map (fun s => numOr0 s.total)).sum +
    ((saleFilter stockOuts).map
      (fun so => numOr0 so.quantity * priceLookup products so.productId)).sum

/-- Stated from the spec, section 4.4: the cost of goods of one sale, as the
sum over its line items of matching product's cost times item quantity
(cost 0 when no product matches). -/
def specSaleCogs (products : List Product) (s : Sale) : Int :=
  ((s.items.getD []).map
    (fun item => costLookup products item.productId * numOr0 item.quantity)).sum

/-- Stated from the spec, section 4.4: sales profit is, summed over all
Sales, the sale's total minus its cost of goods. -/
def specSalesProfit (products : List Product) (sales : List Sale) : Int :=
  (sales.map (fun s => numOr0 s.total - specSaleCogs products s)).sum

/-- Stated from the spec, section 4.4: stock-out profit is the sum over
StockOuts with reason `Sale` of (price minus cost) times quantity, with
no-match StockOuts contributing zero. -/
def specStockOutProfit (products : List Product) (stockOuts : List StockOut) : Int :=
  ((saleFilter stockOuts).map
    (fun so =>
      match findProduct products so.productId with
      | some p => (numOr0 p.price - numOr0 p.cost) * numOr0 so.quantity
      | none => 0)).sum

/-- Stated from the spec, section 4.4: total profit is sales profit plus
stock-out profit minus total expenses. -/
def specTotalProfit (products : List Product) (sales : List Sale)
    (stockOuts : List StockOut) (expenses : List Expense) : Int :=
  specSalesProfit products sales + specStockOutProfit products stockOuts -
    (expenses.map (fun e => numOr0 e.amount)).sum

lemma foldl_add_eq {α : Type} (f : α → Int) (l : List α) (c : Int) :
    l.foldl (fun acc x => acc + f x) c = c + (l.map f).sum := by
  induction l generalizing c with
  | nil => simp
  | cons x xs ih => simp [List.foldl_cons, ih, add_assoc]

lemma foldl_jadd_eq {α : Type} (step : Option Int → α → Option Int) (g : α → Int)
    (l : List α) (h : ∀ x ∈ l, ∀ a : Int, step (some a) x = some (a + g x)) (c : Int) :
    l.foldl step (some c) = some (c + (l.map g).sum) := by
  induction l generalizing c with
  | nil => simp
  | cons x xs ih =>
    rw [List.foldl_cons, h x (List.mem_cons_self x xs)]
    rw [ih (fun y hy a => h y (List.mem_cons_of_mem x hy) a)]
    simp [add_assoc]

lemma baseRevenue_eq_sum (sales : List Sale) :
    baseRevenue sales = (sales.map (fun s => numOr0 s.total)).sum := by
  simpa [baseRevenue] using foldl_add_eq (fun s => numOr0 s.total) sales 0

lemma totalExpenses_eq_sum (expenses : List Expense) :
    totalExpenses expenses = (expenses.map (fun e => numOr0 e.amount)).sum := by
  simpa [totalExpenses] using foldl_add_eq (fun e => numOr0 e.amount) expenses 0

lemma saleCogs_eq_spec (products : List Product) (s : Sale) :
    saleCogs products s = specSaleCogs products s := by
  simpa [saleCogs, specSaleCogs] using
    foldl_add_eq (fun item => costLookup products item.productId * numOr0 item.quantity)
      (s.items.getD []) 0

lemma stockOutRevenue_eq_spec (products : List Product) (stockOuts : List StockOut)
    (hq : ∀ so ∈ stockOuts, so.reason = "Sale" → so.quantity.isSome = true) :
    stockOutRevenue products stockOuts =
      some (((saleFilter stockOuts).map
        (fun so => numOr0 so.quantity * priceLookup products so.productId)).sum) := by
  have h : ∀ so ∈ saleFilter stockOuts, ∀ a : Int,
      jadd (some a) (jmul so.quantity (some (priceLookup products so.productId))) =
        some (a + numOr0 so.quantity * priceLookup products so.productId) := by
    intro so hso a
    rcases List.mem_filter.mp hso with ⟨hmem, hreason⟩
    have hr : so.reason = "Sale" := by simpa using hreason
    obtain ⟨q, hq'⟩ := Option.isSome_iff_exists.mp (hq so hmem hr)
    simp [hq', jadd, jmul, numOr0]
  simpa [stockOutRevenue] using foldl_jadd_eq _ _ (saleFilter stockOuts) h 0

lemma salesProfit_eq_spec (products : List Product) (sales : List Sale)
    (htot : ∀ s ∈ sales, s.total.isSome = true) :
    salesProfit products sales = some (specSalesProfit products sales) := by
  have h : ∀ s ∈ sales, ∀ a : Int,
      jadd (some a) (jsub s.total (some (saleCogs products s))) =
        some (a + (numOr0 s.total - specSaleCogs products s)) := by
    intro s hs a
    obtain ⟨t, ht⟩ := Option.isSome_iff_exists.mp (htot s hs)
    simp [ht, jadd, jsub, numOr0, saleCogs_eq_spec]
  simpa [salesProfit, specSalesProfit] using foldl_jadd_eq _ _ sales h 0

lemma stockOutProfit_eq_spec (products : List Product) (stockOuts : List StockOut)
    (hso : ∀ so ∈ stockOuts, so.reason = "Sale" →
      (findProduct products so.productId).all
        (fun p => so.quantity.isSome && p.price.isSome && p.cost.isSome) = true) :
    stockOutProfit products stockOuts = some (specStockOutProfit products stockOuts) := by
  have h : ∀ so ∈ saleFilter stockOuts, ∀ a : Int,
      (match findProduct products so.productId with
        | none => some a
        | some p => jadd (some a) (jmul (jsub p.price p.cost) so.quantity)) =
        some (a + (match findProduct products so.productId with
          | some p => (numOr0 p.price - numOr0 p.cost) * numOr0 so.quantity
          | none => 0)) := by
    intro so hmemf a
    rcases List.mem_filter.mp hmemf with ⟨hmem, hreason⟩
    have hr : so.reason = "Sale" := by simpa using hreason
    have hall := hso so hmem hr
    cases hfind : findProduct products so.productId with
    | none => simp
    | some p =>
      rw [hfind] at hall
      obtain ⟨⟨hqs, hps⟩, hcs⟩ : (so.quantity.isSome = true ∧ p.price.isSome = true) ∧
          p.cost.isSome = true := by simpa [Option.all, Bool.and_eq_true] using hall
      obtain ⟨q, hq'⟩ := Option.isSome_iff_exists.mp hqs
      obtain ⟨pr, hpr⟩ := Option.isSome_iff_exists.mp hps
      obtain ⟨co, hco⟩ := Option.isSome_iff_exists.mp hcs
      simp [hq', hpr, hco, jadd, jsub, jmul, numOr0]
  simpa [stockOutProfit, specStockOutProfit] using
    foldl_jadd_eq _ _ (saleFilter stockOuts) h 0

lemma totalRevenue_eq_spec (st : AppState)
    (hq : ∀ so ∈ st.stockOuts, so.reason = "Sale" → so.quantity.isSome = true) :
    (stats st).totalRevenue = some (specTotalRevenue st.products st.sales st.stockOuts) := by
  simp [stats, stockOutRevenue_eq_spec st.products st.stockOuts hq, baseRevenue_eq_sum,
    jadd, specTotalRevenue]

lemma totalProfit_eq_spec (st : AppState)
    (htot : ∀ s ∈ st.sales, s.total.isSome = true)
    (hso : ∀ so ∈ st.stockOuts, so.reason = "Sale" →
      (findProduct st.products so.productId).all
        (fun p => so.quantity.isSome && p.price.isSome && p.cost.isSome) = true) :
    (stats st).totalProfit =
      some (specTotalProfit st.products st.sales st.stockOuts st.expenses) := by
  simp [stats, salesProfit_eq_spec _ _ htot, stockOutProfit_eq_spec _ _ hso,
    totalExpenses_eq_sum, jadd, jsub, specTotalProfit]

lemma applyAction_stockOK (st : AppState) (a : Action)
    (hst : ∀ p ∈ st.products, stockOK p.stock = true)
    (ha : actionOK a = true) :
    ∀ p ∈ (applyAction st a).products, stockOK p.stock = true := by
  cases a with
  | addProduct q =>
    intro p hp
    simp only [applyAction, handleAddProduct] at hp
    rcases List.mem_cons.mp hp with h | h
    · subst h; exact ha
    · exact hst p h
  | updateProduct q =>
    intro p hp
    simp only [applyAction, handleUpdateProduct] at hp
    rcases List.mem_map.mp hp with ⟨p₀, hp₀, hfp⟩
    by_cases hid : (p₀.id == q.id) = true
    · rw [if_pos hid] at hfp; subst hfp; exact ha
    · rw [if_neg hid] at hfp; subst hfp; exact hst p₀ hp₀
  | deleteProduct pid =>
    intro p hp
    simp only [applyAction, handleDeleteProduct] at hp
    exact hst p (List.mem_filter.mp hp).1
  | addExpense e =>
    intro p hp
    exact hst p hp
  | recordStockOut now record =>
    intro p hp
    simp only [applyAction, handleRecordStockOut] at hp
    rcases List.mem_map.mp hp with ⟨p₀, hp₀, hfp⟩
    subst hfp
    unfold stockOutProductUpdate
    by_cases hid : (p₀.id == record.productId) = true
    · rw [if_pos hid]
      have h₀ := hst p₀ hp₀
      cases hstock : p₀.stock with
      | none => rw [hstock] at h₀; simp [stockOK] at h₀
      | some s =>
        have hq : record.quantity.isSome = true := by simpa [actionOK] using ha
        obtain ⟨qv, hqv⟩ := Option.isSome_iff_exists.mp hq
        simp [hstock, hqv, jsub, jmax0, stockOK, le_max_left]
    · rw [if_neg hid]; exact hst p₀ hp₀
  | updateSettings s =>
    intro p hp
    exact hst p hp

/-- C1 (amended): for every sequence of Mutation Handler calls in which every
product passed to AddProduct or UpdateProduct has a numeric non-negative stock
and every RecordStockOut record has a numeric quantity, starting from a state
in which every product's stock is a numeric non-negative value, every
product's stock in the Products store is a non-negative number after every
call (instantiate with any prefix of the sequence; a prefix of a well-formed
sequence is well-formed). -/
theorem c1_stock_invariant (st : AppState) (acts : List Action)
    (hst : st.products.all (fun p => stockOK p.stock) = true)
    (hacts : acts.all actionOK = true) :
    (applyActions st acts).products.all (fun p => stockOK p.stock) = true := by
  induction acts generalizing st with
  | nil => simpa [applyActions] using hst
  | cons a rest ih =>
    have h1 : actionOK a = true ∧ rest.all actionOK = true := by simpa using hacts
    have hst' : ∀ p ∈ (applyAction st a).products, stockOK p.stock = true :=
      applyAction_stockOK st a (fun p hp => by
        have := List.all_eq_true.mp hst p hp
        simpa using this) h1.1
    have hall : (applyAction st a).products.all (fun p => stockOK p.stock) = true :=
      List.all_eq_true.mpr (fun p hp => by simpa using hst' p hp)
    simpa [applyActions, List.foldl_cons] using ih (applyAction st a) hall h1.2

/-- C1 counterexample: the claim as stated is false.  Starting from a state
whose only product has stock 10 (so every stock is non-negative), the single
Mutation Handler call UpdateProduct with a product whose stock field is -1
leaves the Products store holding a product with stock -1 < 0: the handler
(`src/App.tsx` lines 150-152) replaces the matching product verbatim without
any clamping or validation. -/
theorem c1_counterexample :
    (c1Start.products.all (fun p => stockOK p.stock) = true) ∧
    ((applyActions c1Start [Action.updateProduct c1BadProduct]).products.map Product.stock
      = [some (-1)]) ∧
    ((applyActions c1Start [Action.updateProduct c1BadProduct]).products.all
      (fun p => stockOK p.stock) = false) := by
  decide

/-- C1 witness: the amended invariant at a concrete state and call sequence
(a stock-out of 99 on a product holding 10, then adding a product with stock
0): every resulting stock is a non-negative number. -/
theorem c1_witness :
    (applyActions c1Start
      [Action.recordStockOut "t2"
        { id := "w1", productId := "p1", quantity := some 99, reason := "Damage", date := "" },
       Action.addProduct { scenarioProduct with id := "p9", stock := some 0 }]).products.all
      (fun p => stockOK p.stock) = true :=
  c1_stock_invariant c1Start _ (by decide) (by decide)

/-- C2 counterexample: the claim as stated is false.  In the snapshot
`c2State` (one product with price 100, one StockOut with reason `Sale` and an
absent quantity on that product), the metrics engine computes
`Number(so.quantity) * (product?.price || 0)` without a zero fallback on the
quantity, so totalRevenue and totalProfit are NaN (modelled `none`), not
well-defined numbers. -/
theorem c2_counterexample :
    (stats c2State).totalRevenue = none ∧ (stats c2State).totalProfit = none := by
  decide

/-- C2 (amended): the coerce-to-zero policy applies to a Sale's total in
direct revenue, an Expense's amount, a line item's quantity and the matched
product's cost in the sales cost of goods, the product's price in stock-out
revenue, and a product's stock and minStock in the low-stock count; but a
StockOut's quantity, a Sale's total in sales profit, and a matched product's
price and cost in stock-out profit are converted with `Number(·)` and no
zero fallback.  The metrics are therefore well-defined numbers whenever every
Sale's total, every `Sale`-reason StockOut's quantity, and every matched
product's price and cost are numeric (totalSales, totalExpenses and
lowStockCount are well-defined numbers unconditionally, as their embedded
types show). -/
theorem c2_coercion_amended (st : AppState)
    (htot : ∀ s ∈ st.sales, s.total.isSome = true)
    (hq : ∀ so ∈ st.stockOuts, so.reason = "Sale" → so.quantity.isSome = true)
    (hpc : ∀ so ∈ st.stockOuts, so.reason = "Sale" →
      (findProduct st.products so.productId).all
        (fun p => p.price.isSome && p.cost.isSome) = true) :
    ((stats st).totalRevenue).isSome = true ∧ ((stats st).totalProfit).isSome = true := by
  have hso : ∀ so ∈ st.stockOuts, so.reason = "Sale" →
      (findProduct st.products so.productId).all
        (fun p => so.quantity.isSome && p.price.isSome && p.cost.isSome) = true := by
    intro so hmem hr
    have h1 := hq so hmem hr
    have h2 := hpc so hmem hr
    cases hfind : findProduct st.products so.productId with
    | none => simp [Option.all]
    | some p =>
      rw [hfind] at h2
      have h2' : p.price.isSome = true ∧ p.cost.isSome = true := by
        simpa [Option.all, Bool.and_eq_true] using h2
      simp [Option.all, Bool.and_eq_true]
      exact ⟨⟨h1, h2'.1⟩, h2'.2⟩
  constructor
  · rw [totalRevenue_eq_spec st hq]; rfl
  · rw [totalProfit_eq_spec st htot hso]; rfl

/-- C2 witness: the amended statement at the spec's concrete scenario
snapshot, whose numeric fields are all present. -/
theorem c2_witness :
    ((stats scenarioState).totalRevenue).isSome = true ∧
    ((stats scenarioState).totalProfit).isSome = true :=
  c2_coercion_amended scenarioState (by decide) (by decide) (by decide)

/-- C3: for every snapshot whose `Sale`-reason StockOuts carry numeric
quantities (the only fields the claim's formula reads that the engine does
not coerce), totalRevenue equals the sum of `total` over all Sales plus the
sum, over StockOuts with reason `Sale`, of quantity times the matching
product's price, with price 0 when no product matches. -/
theorem c3_total_revenue (st : AppState)
    (hq : ∀ so ∈ st.stockOuts, so.reason = "Sale" → so.quantity.isSome = true) :
    (stats st).totalRevenue = some (specTotalRevenue st.products st.sales st.stockOuts) :=
  totalRevenue_eq_spec st hq

/-- C3 witness: the spec's concrete scenario — one Product (price 100,
cost 60, stock 10), one Sale with total 100, one StockOut with reason `Sale`
and quantity 2 — yields totalRevenue 100 + 200 = 300. -/
theorem c3_witness : (stats scenarioState).totalRevenue = some 300 := by
  have h := c3_total_revenue scenarioState (by decide)
  rw [h]; decide

/-- C4: for every snapshot whose Sales carry numeric totals and whose
`Sale`-reason StockOuts with a matching product carry numeric quantity over a
product with numeric price and cost (the fields the engine reads without a
zero fallback), totalProfit equals sales profit (each sale's total minus its
cost of goods, cost 0 on a missing match) plus stock-out profit (price minus
cost times quantity over matched `Sale`-reason StockOuts, unmatched ones
contributing zero) minus total expenses. -/
theorem c4_total_profit (st : AppState)
    (htot : ∀ s ∈ st.sales, s.total.isSome = true)
    (hso : ∀ so ∈ st.stockOuts, so.reason = "Sale" →
      (findProduct st.products so.productId).all
        (fun p => so.quantity.isSome && p.price.isSome && p.cost.isSome) = true) :
    (stats st).totalProfit =
      some (specTotalProfit st.products st.sales st.stockOuts st.expenses) :=
  totalProfit_eq_spec st htot hso

/-- C4 witness: the spec's concrete scenario — sales profit 100 − 60 = 40,
stock-out profit (100 − 60) × 2 = 80, no expenses — yields totalProfit 120. -/
theorem c4_witness : (stats scenarioState).totalProfit = some 120 := by
  have h := c4_total_profit scenarioState (by decide) (by decide)
  rw [h]; decide

/-- C5 counterexample: the claim as stated is false for the Settings store.
The settings initializer (`src/App.tsx` lines 79-89) performs no shape
validation: a stored value that parses but has the wrong shape — here the
number 5 — is returned as-is, not replaced by the default settings record. -/
theorem c5_settings_counterexample :
    loadSettings (RawStored.parsed (Json.num 5)) settingsDefaultJson = Json.num 5 ∧
    Json.num 5 ≠ settingsDefaultJson := by
  refine ⟨rfl, fun h => ?_⟩
  exact Json.noConfusion h

/-- C5 (amended): for the four collection stores, load on any failure — a
missing key, malformed data, or a parsed value that is not a sequence —
returns the caller-supplied default (in particular, a non-array value stored
under the Products key yields the seed data) and, being total, never
propagates an error; a parsed array is returned as-is.  For the Settings
store, a missing key or malformed data yields the caller-supplied default,
but any successfully parsed value is returned as-is regardless of shape. -/
theorem c5_load_defaults :
    (∀ dflt : List Json, loadCollection RawStored.missing dflt = dflt) ∧
    (∀ dflt : List Json, loadCollection RawStored.unparseable dflt = dflt) ∧
    (∀ (dflt : List Json) (v : Json), (∀ elems : List Json, v ≠ Json.arr elems) →
      loadCollection (RawStored.parsed v) dflt = dflt) ∧
    (∀ (dflt elems : List Json), loadCollection (RawStored.parsed (Json.arr elems)) dflt = elems) ∧
    (∀ dflt : Json, loadSettings RawStored.missing dflt = dflt) ∧
    (∀ dflt : Json, loadSettings RawStored.unparseable dflt = dflt) ∧
    (∀ (dflt v : Json), loadSettings (RawStored.parsed v) dflt = v) := by
  refine ⟨fun _ => rfl, fun _ => rfl, ?_, fun _ _ => rfl, fun _ => rfl, fun _ => rfl,
    fun _ _ => rfl⟩
  intro dflt v hv
  cases v with
  | arr elems => exact absurd rfl (hv elems)
  | null => rfl
  | bool b => rfl
  | num n => rfl
  | str s => rfl
  | obj fields => rfl

/-- C5 witness: a non-array value (the number 5) stored under the Products
key yields the seed list, not an exception. -/
theorem c5_witness :
    loadCollection (RawStored.parsed (Json.num 5)) INITIAL_PRODUCTS = INITIAL_PRODUCTS :=
  c5_load_defaults.2.2.1 INITIAL_PRODUCTS (Json.num 5) (fun _ h => Json.noConfusion h)

/-- C6: a RecordStockOut whose quantity strictly exceeds the matching
product's non-negative numeric stock leaves that product with stock exactly
0, never a negative number: the handler computes
`Math.max(0, Number(p.stock) - Number(record.quantity))`. -/
theorem c6_over_decrement_clamps (now : String) (record : StockOut) (st : AppState)
    (i : Nat) (p : Product) (s q : Int)
    (hp : st.products[i]? = some p)
    (hid : p.id = record.productId)
    (hs : p.stock = some s) (_hs0 : 0 ≤ s)
    (hq : record.quantity = some q) (hlt : s < q) :
    (handleRecordStockOut now record st).products[i]? =
      some { p with stock := some 0, lastUpdated := now } := by
  show (st.products.map (stockOutProductUpdate now record))[i]? = _
  rw [List.getElem?_map, hp]
  have hmax : max 0 (s - q) = 0 := max_eq_left (sub_nonpos.mpr (le_of_lt hlt))
  simp [stockOutProductUpdate, hid, hs, hq, jsub, jmax0, hmax]

/-- C6 witness: a stock-out of 15 against a product holding 10 clamps the
product's stock to 0. -/
theorem c6_witness :
    (handleRecordStockOut "t"
      { id := "so6", productId := "p1", quantity := some 15, reason := "Damage", date := "" }
      c1Start).products[0]? =
      some { scenarioProduct with stock := some 0, lastUpdated := "t" } :=
  c6_over_decrement_clamps "t" _ c1Start 0 scenarioProduct 10 15 rfl rfl rfl
    (by decide) rfl (by decide)

/-- C7: a RecordStockOut whose productId matches no product still appends the
record to the StockOuts store and leaves the Products store completely
unchanged: the product map is the identity when no id matches. -/
theorem c7_unmatched_stockout (now : String) (record : StockOut) (st : AppState)
    (h : ∀ p ∈ st.products, p.id ≠ record.productId) :
    (handleRecordStockOut now record st).products = st.products ∧
    (handleRecordStockOut now record st).stockOuts = st.stockOuts ++ [record] := by
  refine ⟨?_, rfl⟩
  show st.products.map (stockOutProductUpdate now record) = st.products
  have h' : ∀ p ∈ st.products, stockOutProductUpdate now record p = id p := by
    intro p hp
    simp [stockOutProductUpdate, beq_eq_false_iff_ne.mpr (h p hp)]
  rw [List.map_congr_left h', List.map_id]

/-- C7 witness: a stock-out referencing the id `ghost`, matched against a
store holding only the product `p1`, is recorded while the Products store is
untouched. -/
theorem c7_witness :
    (handleRecordStockOut "t"
      { id := "so7", productId := "ghost", quantity := some 3, reason := "Sale", date := "" }
      c1Start).products = c1Start.products ∧
    (handleRecordStockOut "t"
      { id := "so7", productId := "ghost", quantity := some 3, reason := "Sale", date := "" }
      c1Start).stockOuts = c1Start.stockOuts ++
      [{ id := "so7", productId := "ghost", quantity := some 3, reason := "Sale", date := "" }] :=
  c7_unmatched_stockout "t" _ c1Start (by decide)

/-- C8: DeleteProduct removes exactly the products carrying the deleted id
and leaves the Sales, Expenses, StockOuts and Settings stores unchanged;
recomputing the metrics on the result is total by construction, and every
dangling reference to the deleted id degrades to zero: the product lookup
misses, so the sales cost of goods substitutes cost 0, stock-out revenue
substitutes price 0 (hence a numeric quantity contributes 0), and stock-out
profit skips the record (contributing 0). -/
theorem c8_delete_product (pid : String) (st : AppState) :
    ((handleDeleteProduct pid st).products = st.products.filter (fun p => p.id != pid)) ∧
    (∀ p : Product, p ∈ (handleDeleteProduct pid st).products ↔
      p ∈ st.products ∧ p.id ≠ pid) ∧
    (handleDeleteProduct pid st).sales = st.sales ∧
    (handleDeleteProduct pid st).expenses = st.expenses ∧
    (handleDeleteProduct pid st).stockOuts = st.stockOuts ∧
    (handleDeleteProduct pid st).shopSettings = st.shopSettings ∧
    findProduct (handleDeleteProduct pid st).products pid = none ∧
    costLookup (handleDeleteProduct pid st).products pid = 0 ∧
    priceLookup (handleDeleteProduct pid st).products pid = 0 ∧
    (∀ so : StockOut, so.productId = pid → so.reason = "Sale" →
      stockOutProfit (handleDeleteProduct pid st).products [so] = some 0) ∧
    (∀ so : StockOut, so.productId = pid → so.reason = "Sale" → ∀ qv : Int,
      so.quantity = some qv →
      stockOutRevenue (handleDeleteProduct pid st).products [so] = some 0) := by
  have hfind : findProduct (handleDeleteProduct pid st).products pid = none := by
    unfold findProduct handleDeleteProduct
    rw [List.find?_eq_none]
    intro p hp
    rcases List.mem_filter.mp hp with ⟨_, hne⟩
    simpa using hne
  refine ⟨rfl, ?_, rfl, rfl, rfl, rfl, hfind, ?_, ?_, ?_, ?_⟩
  · intro p
    constructor
    · intro hp
      rcases List.mem_filter.mp hp with ⟨hm, hne⟩
      exact ⟨hm, by simpa using hne⟩
    · rintro ⟨hm, hne⟩
      exact List.mem_filter.mpr ⟨hm, by simpa using hne⟩
  · simp [costLookup, hfind]
  · simp [priceLookup, hfind, numOr0]
  · intro so hso hreason
    simp [stockOutProfit, saleFilter, hreason, hso, hfind]
  · intro so hso hreason qv hq
    simp [stockOutRevenue, saleFilter, hreason, hso, hq, priceLookup, hfind,
      jadd, jmul, numOr0]

/-- C8 witness: deleting the product `p1` makes its lookup miss, and a
`Sale`-reason stock-out of quantity 4 referencing it contributes zero to both
stock-out profit and stock-out revenue. -/
theorem c8_witness :
    findProduct (handleDeleteProduct "p1" c1Start).products "p1" = none ∧
    stockOutProfit (handleDeleteProduct "p1" c1Start).products
      [{ id := "so8", productId := "p1", quantity := some 4, reason := "Sale", date := "" }]
      = some 0 ∧
    stockOutRevenue (handleDeleteProduct "p1" c1Start).products
      [{ id := "so8", productId := "p1", quantity := some 4, reason := "Sale", date := "" }]
      = some 0 := by
  obtain ⟨h1, h2, h3, h4, h5, h6, h7, h8, h9, h10, h11⟩ := c8_delete_product "p1" c1Start
  exact ⟨h7, h10 _ rfl rfl, h11 _ rfl rfl 4 rfl⟩

/-- C9: lowStockCount counts exactly the products whose stock is less than
or equal to minStock, both coerced to zero when absent, and the boundary is
inclusive: stock 5 with minStock 5 is counted, stock 6 with minStock 5 is
not. -/
theorem c9_low_stock_boundary :
    (∀ products : List Product,
      lowStockCount products =
        products.countP (fun p => decide (numOr0 p.stock ≤ numOr0 p.minStock))) ∧
    lowStockCount [{ scenarioProduct with stock := some 5, minStock := some 5 }] = 1 ∧
    lowStockCount [{ scenarioProduct with stock := some 6, minStock := some 5 }] = 0 := by
  refine ⟨fun products => ?_, by decide, by decide⟩
  rw [List.countP_eq_length_filter]
  rfl

/-- C10: a RecordStockOut whose record matches a product changes only that
product's stock and lastUpdated fields — id, name, price, cost and minStock
are unchanged — leaves every non-matching product entirely unchanged
(position by position), and leaves the Sales, Expenses and Settings stores
unchanged. -/
theorem c10_stockout_frame (now : String) (record : StockOut) (st : AppState) :
    (∀ i : Nat, (handleRecordStockOut now record st).products[i]? =
      (st.products[i]?).map (stockOutProductUpdate now record)) ∧
    (∀ p : Product, (stockOutProductUpdate now record p).id = p.id ∧
      (stockOutProductUpdate now record p).name = p.name ∧
      (stockOutProductUpdate now record p).price = p.price ∧
      (stockOutProductUpdate now record p).cost = p.cost ∧
      (stockOutProductUpdate now record p).minStock = p.minStock) ∧
    (∀ p : Product, p.id ≠ record.productId → stockOutProductUpdate now record p = p) ∧
    (handleRecordStockOut now record st).sales = st.sales ∧
    (handleRecordStockOut now record st).expenses = st.expenses ∧
    (handleRecordStockOut now record st).shopSettings = st.shopSettings := by
  refine ⟨?_, ?_, ?_, rfl, rfl, rfl⟩
  · intro i
    show (st.products.map (stockOutProductUpdate now record))[i]? = _
    exact List.getElem?_map _ _ _
  · intro p
    unfold stockOutProductUpdate
    by_cases hid : (p.id == record.productId) = true
    · simp [hid]
    · simp [hid]
  · intro p h
    simp [stockOutProductUpdate, beq_eq_false_iff_ne.mpr h]

/-- C10 witness: at the concrete scenario, the non-matching product `p2` is
left entirely unchanged and the Sales store is untouched. -/
theorem c10_witness :
    stockOutProductUpdate "t" scenarioStockOut { scenarioProduct with id := "p2" }
      = { scenarioProduct with id := "p2" } ∧
    (handleRecordStockOut "t" scenarioStockOut c1Start).sales = c1Start.sales := by
  obtain ⟨h1, h2, h3, h4, h5, h6⟩ := c10_stockout_frame "t" scenarioStockOut c1Start
  exact ⟨h3 _ (by decide), h4⟩

end ShopMaster
